import Mathlib

/-!
Verification development for the Vacation_Climate_Analysis Flask application
(src/Vacation_Climate_Analysis/app.py).

The file gives a shallow embedding of the app's core logic — the hand-rolled
calendar-date validator, the range-metrics query, the last-year window
resolver, the most-active-station finder, and the precipitation endpoint's
dictionary construction — and proves or refutes the specification's claims
about them.

Modelling conventions:
* Python floats are modelled by `Rat`; every numeric value appearing in the
  claims is exactly representable, so the model is exact on them.  pandas'
  `NaN` outcome of reducing an empty column is modelled by `none`.
* A SQL `NULL` in the `prcp`/`tobs` columns is `none`.
* Each distinct Python raise site or runtime failure (TypeError from
  subscripting `None`, IndexError from `[0]` on an empty list, ValueError
  from `int(...)` or the `datetime` constructor, ...) is one `PyErr` variant.
* Strings keep SQLite's binary collation semantics: Lean's lexicographic
  `String` order coincides with byte order on UTF-8, which is what SQLite
  uses to compare `TEXT` values.
* Only ASCII digits are modelled for `\d` in the date regex and for
  `int(...)` digit parsing.
-/

/-- Python runtime errors produced by the modelled code paths.  Each variant
corresponds to one distinct raise site or built-in failure in app.py. -/
inductive PyErr where
  /-- the format-regex raise in validate_date -/
  | formatErr
  /-- ValueError: from int(...) on a non-numeric component, or from the
  datetime constructor's range checks -/
  | valueErr
  /-- the month-range raise in validate_date -/
  | monthErr
  /-- the day-range raise in validate_date -/
  | dayErr
  /-- TypeError: subscripting the None returned by Query.first() on an empty
  result set, or calling datetime with a wrong argument count -/
  | typeErr
  /-- IndexError: `[0]` on an empty query-result list -/
  | indexErr
  /-- the invalid-date-range raise in the /api/v1.0/start/end route -/
  | rangeErr
  /-- OverflowError: datetime arithmetic leaving the representable range -/
  | overflowErr
deriving DecidableEq, Repr

/-- One row of the reflected `measurement` table, projected to the four
columns every query in app.py selects: station id, date (a 10-character
`YYYY-MM-DD` TEXT value), precipitation and observed temperature.  The two
numeric columns are nullable. -/
structure Mrecord where
  station : String
  date : String
  prcp : Option Rat
  tobs : Option Rat
deriving DecidableEq, Repr

/-- The measurement table in its natural (rowid) order. -/
abbrev Store := List Mrecord

/-! Character and Python-string helpers. -/

/-- Numeric value of an ASCII digit character. -/
def digitVal (c : Char) : Nat := c.toNat - 48

/-- ASCII digit test (codepoints 48-57), the character class the app's
regex `\d` and `int(...)` accept in the inputs this model covers. -/
def isDig (c : Char) : Bool := decide (48 ≤ c.toNat) && decide (c.toNat ≤ 57)

/-- Whitespace characters stripped by Python's `int()` conversion
(space, tab, newline, carriage return, vertical tab, form feed). -/
def isPyWs (c : Char) : Bool :=
  c == ' ' || c == Char.ofNat 9 || c == Char.ofNat 10 ||
  c == Char.ofNat 13 || c == Char.ofNat 11 || c == Char.ofNat 12

/-- Strip leading and trailing Python whitespace from a character list. -/
def stripWs (l : List Char) : List Char :=
  ((l.dropWhile isPyWs).reverse.dropWhile isPyWs).reverse

/-- Lexicographic strict order on character lists.  On UTF-8 text this is
SQLite's binary (memcmp) collation, the order used to compare TEXT values. -/
def strLtL : List Char → List Char → Bool
  | [], [] => false
  | [], _ :: _ => true
  | _ :: _, [] => false
  | a :: as, b :: bs => if a < b then true else if b < a then false else strLtL as bs

/-- SQLite's `s <= t` on TEXT values. -/
def strLeB (s t : String) : Bool := !(strLtL t.data s.data)

/-- Continue parsing the digits of a Python int literal after its first
digit, allowing single underscores between digits (PEP 515). -/
def parseDigitsAcc : List Char → Nat → Option Nat
  | [], acc => some acc
  | c :: rest, acc =>
    if c = '_' then
      match rest with
      | [] => none
      | c2 :: rest2 =>
        if isDig c2 then parseDigitsAcc rest2 (acc * 10 + digitVal c2) else none
    else if isDig c then parseDigitsAcc rest (acc * 10 + digitVal c) else none

/-- Parse a nonempty all-digit (with embedded underscores) character list. -/
def parseNatCore : List Char → Option Nat
  | [] => none
  | c :: rest => if isDig c then parseDigitsAcc rest (digitVal c) else none

/-- Model of Python's `int(s)` on a string: optional surrounding whitespace,
optional sign, then a nonempty digit sequence; `none` models the ValueError
raised on anything else. -/
def pyInt (s : String) : Option Int :=
  match stripWs s.data with
  | [] => none
  | c :: rest =>
    if c = '+' then Option.map (fun n => Int.ofNat n) (parseNatCore rest)
    else if c = '-' then Option.map (fun n => Int.negOfNat n) (parseNatCore rest)
    else Option.map (fun n => Int.ofNat n) (parseNatCore (c :: rest))

/-- Model of Python's `str.split(sep)` for a one-character separator:
maximal (possibly empty) chunks between separator occurrences. -/
def splitOnChar (sep : Char) : List Char → List (List Char)
  | [] => [[]]
  | c :: cs =>
    if c = sep then [] :: splitOnChar sep cs
    else
      match splitOnChar sep cs with
      | [] => [[c]]
      | h :: t => (c :: h) :: t

/-- Sequence a list of optional values, failing if any is `none`. -/
def traverseOpt : List (Option α) → Option (List α)
  | [] => some []
  | o :: rest =>
    match o, traverseOpt rest with
    | some a, some l => some (a :: l)
    | _, _ => none

/-- Embedding of `date_string_to_nums` (app.py lines 45-46): split the input
on `-` and convert every component with `int(...)`; `none` models the
ValueError `int` raises on a non-numeric component. -/
def date_string_to_nums (date_string : String) : Option (List Int) :=
  traverseOpt ((splitOnChar '-' date_string.data).map (fun part => pyInt ⟨part⟩))

/-- Model of `re.match(r"\d{4}-\d{2}-\d{2}", s)` converted to a Bool:
`re.match` anchors only at the start of the string, so this checks that the
first ten characters are 4 digits, `-`, 2 digits, `-`, 2 digits and ignores
everything after them. -/
def dateFormatCheckL : List Char → Bool
  | a :: b :: c :: d :: e :: f :: g :: h :: i :: j :: _ =>
    isDig a && isDig b && isDig c && isDig d && (e == '-') &&
    isDig f && isDig g && (h == '-') && isDig i && isDig j
  | _ => false

/-- String version of the date format check used by `validate_date`. -/
def dateFormatCheck (s : String) : Bool := dateFormatCheckL s.data

/-- Embedding of the `month_lengths` dictionary of `validate_date`, with the
February entry passed in (the code mutates it to 29 in leap years). -/
def month_lengths (feb m : Int) : Int :=
  if m = 1 then 31 else if m = 2 then feb else if m = 3 then 31
  else if m = 4 then 30 else if m = 5 then 31 else if m = 6 then 30
  else if m = 7 then 31 else if m = 8 then 31 else if m = 9 then 30
  else if m = 10 then 31 else if m = 11 then 30 else 31

/-- The leap-year condition exactly as written in `validate_date`
(app.py lines 173-177): `y % 4 == 0 and ((y % 100 == 0 and y % 400 == 0)
or (not y % 100 == 0))`. -/
def codeLeap (y : Int) : Bool :=
  (y % 4 == 0) && ((y % 100 == 0 && y % 400 == 0) || !(y % 100 == 0))

/-- The standard Gregorian leap rule, as used internally by Python's
`datetime` constructor. -/
def gregLeap (y : Int) : Bool :=
  (y % 4 == 0) && (!(y % 100 == 0) || (y % 400 == 0))

/-- Days in a month according to Python's `datetime` module. -/
def daysInMonth (y m : Int) : Int :=
  month_lengths (if gregLeap y then 29 else 28) m

/-- A `datetime.datetime` value: the seven components Python stores.
Comparison is lexicographic on the components. -/
structure Dt where
  year : Int
  month : Int
  day : Int
  hour : Int
  minute : Int
  second : Int
  micro : Int
deriving DecidableEq, Repr

/-- Range checks performed by the `datetime.datetime(...)` constructor
(MINYEAR = 1, MAXYEAR = 9999); a violation raises ValueError. -/
def mkDatetime (y m d h mi s mu : Int) : Except PyErr Dt :=
  if 1 ≤ y ∧ y ≤ 9999 ∧ 1 ≤ m ∧ m ≤ 12 ∧ 1 ≤ d ∧ d ≤ daysInMonth y m ∧
     0 ≤ h ∧ h ≤ 23 ∧ 0 ≤ mi ∧ mi ≤ 59 ∧ 0 ≤ s ∧ s ≤ 59 ∧
     0 ≤ mu ∧ mu ≤ 999999
  then Except.ok ⟨y, m, d, h, mi, s, mu⟩
  else Except.error PyErr.valueErr

/-- Model of `dt.datetime(*args)`: 3 to 7 positional arguments construct a
datetime (missing time components default to 0); any other argument count
raises TypeError. -/
def dtDatetime : List Int → Except PyErr Dt
  | [y, m, d] => mkDatetime y m d 0 0 0 0
  | [y, m, d, h] => mkDatetime y m d h 0 0 0
  | [y, m, d, h, mi] => mkDatetime y m d h mi 0 0
  | [y, m, d, h, mi, s] => mkDatetime y m d h mi s 0
  | [y, m, d, h, mi, s, mu] => mkDatetime y m d h mi s mu
  | _ => Except.error PyErr.typeErr

/-- Decidable equality for `Except`, needed to settle concrete runs of the
embedded functions by `decide`. -/
instance exceptDecEq {ε α : Type} [DecidableEq ε] [DecidableEq α] :
    DecidableEq (Except ε α)
  | Except.error e, Except.error e' =>
    if h : e = e' then isTrue (by rw [h])
    else isFalse (by intro he; cases he; exact h rfl)
  | Except.error _, Except.ok _ => isFalse (by intro h; cases h)
  | Except.ok _, Except.error _ => isFalse (by intro h; cases h)
  | Except.ok a, Except.ok b =>
    if h : a = b then isTrue (by rw [h])
    else isFalse (by intro he; cases he; exact h rfl)

/-- Embedding of `validate_date` (app.py lines 133-190).  The input is a
string by type, so the `type(date) != str` raise cannot fire in the model.
The remaining steps mirror the source: prefix regex check, split-and-int,
leap-year adjustment of the February entry, month check, day check, and
finally `dt.datetime(*date_list)`. -/
def validate_date (date : String) : Except PyErr Dt :=
  if !(dateFormatCheck date) then Except.error PyErr.formatErr
  else
    match date_string_to_nums date with
    | none => Except.error PyErr.valueErr
    | some date_list =>
      match date_list with
      | y :: m :: d :: _ =>
        let feb : Int := if codeLeap y then 29 else 28
        if m > 12 ∨ m < 1 then Except.error PyErr.monthErr
        else if d > month_lengths feb m ∨ d < 1 then Except.error PyErr.dayErr
        else dtDatetime date_list
      | _ => Except.error PyErr.indexErr

/-! Proleptic-Gregorian day arithmetic, used to model `datetime` plus/minus
`timedelta`.  Day numbers count from 0000-03-01 so that all values reachable
from valid datetimes (year ≥ 1) are natural numbers. -/

/-- Day number of a civil date (year ≥ 1), counting from 0000-03-01. -/
def daysFromCivil (y m d : Nat) : Nat :=
  let y' := if m ≤ 2 then y - 1 else y
  let era := y' / 400
  let yoe := y' % 400
  let mp := (m + 9) % 12
  let doy := (153 * mp + 2) / 5 + d - 1
  let doe := yoe * 365 + yoe / 4 - yoe / 100 + doy
  era * 146097 + doe

/-- Civil date of a day number (inverse of `daysFromCivil` on valid dates). -/
def civilFromDays (z : Nat) : Nat × Nat × Nat :=
  let era := z / 146097
  let doe := z % 146097
  let yoe := (doe - doe / 1460 + doe / 36524 - doe / 146096) / 365
  let y := yoe + era * 400
  let doy := doe - (365 * yoe + yoe / 4 - yoe / 100)
  let mp := (5 * doy + 2) / 153
  let d := doy - (153 * mp + 2) / 5 + 1
  let m := if mp < 10 then mp + 3 else mp - 9
  (if m ≤ 2 then y + 1 else y, m, d)

/-- Day number of 0001-01-01, the smallest representable datetime date. -/
def minDatetimeDays : Nat := daysFromCivil 1 1 1

/-- Day number of 9999-12-31, the largest representable datetime date. -/
def maxDatetimeDays : Nat := daysFromCivil 9999 12 31

/-- Model of `datetimeValue - dt.timedelta(days = n)`: pure date arithmetic
(the time components are untouched); Python raises OverflowError when the
result leaves the representable datetime range. -/
def dtSubDays (t : Dt) (n : Int) : Except PyErr Dt :=
  let z : Int := (daysFromCivil t.year.toNat t.month.toNat t.day.toNat : Int) - n
  if z < (minDatetimeDays : Int) ∨ (maxDatetimeDays : Int) < z then
    Except.error PyErr.overflowErr
  else
    let c := civilFromDays z.toNat
    Except.ok ⟨(c.1 : Int), (c.2.1 : Int), (c.2.2 : Int),
      t.hour, t.minute, t.second, t.micro⟩

/-- Two-digit zero-padded decimal rendering of a component (values ≤ 99). -/
def pad2c (n : Nat) : List Char := [Nat.digitChar (n / 10 % 10), Nat.digitChar (n % 10)]

/-- Four-digit zero-padded decimal rendering of a year (values ≤ 9999). -/
def pad4c (n : Nat) : List Char :=
  [Nat.digitChar (n / 1000 % 10), Nat.digitChar (n / 100 % 10),
   Nat.digitChar (n / 10 % 10), Nat.digitChar (n % 10)]

/-- The `YYYY-MM-DD` part of a datetime's string form. -/
def dateOnlyDt (t : Dt) : String :=
  ⟨pad4c t.year.toNat ++ '-' :: pad2c t.month.toNat ++ '-' :: pad2c t.day.toNat⟩

/-- The `HH:MM:SS` (plus `.ffffff` when microseconds are nonzero) part of a
datetime's string form. -/
def timeOnlyDt (t : Dt) : String :=
  ⟨' ' :: pad2c t.hour.toNat ++ ':' :: pad2c t.minute.toNat ++
    ':' :: pad2c t.second.toNat⟩ ++
  (if t.micro = 0 then "" else ⟨'.' :: pad2c (t.micro.toNat / 10000) ++
    pad2c (t.micro.toNat / 100 % 100) ++ pad2c (t.micro.toNat % 100)⟩)

/-- String the sqlite3 driver's default adapter substitutes for a
`datetime.datetime` query parameter: `isoformat(sep = " ")`, i.e.
`YYYY-MM-DD HH:MM:SS`.  This is the value SQLite actually compares the TEXT
date column against in `Measurement.date >= year_from_most_recent`. -/
def renderDt (t : Dt) : String := dateOnlyDt t ++ timeOnlyDt t

/-! Query-engine modelling: ordering and filtering of the measurement list. -/

/-- Stable insertion used by `sortWithBy`: `after a x = true` means `a` must
come strictly after `x` in the output. -/
def insertSorted (after : α → α → Bool) (a : α) : List α → List α
  | [] => [a]
  | x :: xs => if after a x then x :: insertSorted after a xs else a :: x :: xs

/-- Stable insertion sort; an element is placed after exactly those earlier
elements that must precede it, so ties keep the input order. -/
def sortWithBy (after : α → α → Bool) : List α → List α
  | [] => []
  | x :: xs => insertSorted after x (sortWithBy after xs)

/-- Model of `ORDER BY date DESC` on the measurement table: a stable sort
with the latest dates first (TEXT binary collation = Lean's string order). -/
def orderByDateDesc (store : Store) : List Mrecord :=
  sortWithBy (fun r x => strLtL r.date.data x.date.data) store

/-- Model of the optional station filter of `year_from_most_recent_data`
(`station=-1` means no filter; it is modelled as `none`). -/
def stationFilter (fil : Option String) (l : List Mrecord) : List Mrecord :=
  match fil with
  | none => l
  | some s => l.filter (fun r => r.station == s)

/-- Embedding of `year_from_most_recent_data` (app.py lines 52-79).  The
query is ordered by date descending and optionally filtered by station;
`first()` on an empty result returns `None`, so the subscript
`year_data.first()[1]` raises TypeError.  The most recent date string is
split and fed to `dt.datetime`, 365 days are subtracted, and the resulting
*datetime* is compared against the TEXT date column, which SQLite performs
as a string comparison against `YYYY-MM-DD HH:MM:SS`. -/
def year_from_most_recent_data (store : Store) (station : Option String := none) :
    Except PyErr (List Mrecord) :=
  let year_data := stationFilter station (orderByDateDesc store)
  match year_data.head? with
  | none => Except.error PyErr.typeErr
  | some r0 =>
    match date_string_to_nums r0.date with
    | none => Except.error PyErr.valueErr
    | some date_num_list =>
      match dtDatetime date_num_list with
      | Except.error e => Except.error e
      | Except.ok mostRecent =>
        match dtSubDays mostRecent 365 with
        | Except.error e => Except.error e
        | Except.ok year_from_most_recent =>
          Except.ok (year_data.filter (fun r => strLeB (renderDt year_from_most_recent) r.date))

/-- The stations of a store in order of first appearance (model of the SQL
`GROUP BY station` result groups). -/
def distinctStations (store : Store) : List String :=
  store.foldl (fun acc r => if r.station ∈ acc then acc else acc ++ [r.station]) []

/-- Embedding of `most_active_station` (app.py lines 84-94): group by
station, count rows per station, order descending by count, and take the
station of the first row; `[0]` on an empty result list raises IndexError. -/
def most_active_station (store : Store) : Except PyErr String :=
  let stations_by_rows :=
    sortWithBy (fun p x => p.2 < x.2)
      ((distinctStations store).map
        (fun s => (s, (store.filter (fun r => r.station == s)).length)))
  match stations_by_rows.head? with
  | none => Except.error PyErr.indexErr
  | some p => Except.ok p.1

/-- Result dictionary of `calculate_range_metrics`; `none` models the float
NaN that pandas produces when reducing an empty column. -/
structure Metrics where
  tmin : Option Rat
  tavg : Option Rat
  tmax : Option Rat
deriving DecidableEq, Repr

/-- Binary minimum of two rationals. -/
def ratMin (a b : Rat) : Rat := if a ≤ b then a else b

/-- Binary maximum of two rationals. -/
def ratMax (a b : Rat) : Rat := if a ≤ b then b else a

/-- Minimum of a pandas float column (NaN, i.e. `none`, when empty). -/
def seriesMin : List Rat → Option Rat
  | [] => none
  | v :: rest =>
    match seriesMin rest with
    | none => some v
    | some m => some (ratMin v m)

/-- Maximum of a pandas float column (NaN when empty). -/
def seriesMax : List Rat → Option Rat
  | [] => none
  | v :: rest =>
    match seriesMax rest with
    | none => some v
    | some m => some (ratMax v m)

/-- Arithmetic mean of a pandas float column (NaN when empty). -/
def seriesMean (l : List Rat) : Option Rat :=
  if l.length = 0 then none else some (l.sum / l.length)

/-- Embedding of `calculate_range_metrics` (app.py lines 100-128): filter
`date >= start` (the start string is compared directly against the TEXT
column), optionally `date <= end`, then `DataFrame(...).dropna()` — which
drops every row with a null in ANY column, so a row with null precipitation
is dropped even when its temperature is present — and reduce the `tobs`
column with min/mean/max. -/
def calculate_range_metrics (store : Store) (start : String)
    (endd : Option String := none) : Metrics :=
  let from_start_vals := store.filter (fun r => strLeB start r.date)
  let from_start_vals :=
    match endd with
    | none => from_start_vals
    | some e => from_start_vals.filter (fun r => strLeB r.date e)
  let from_start_df := from_start_vals.filter (fun r => r.prcp.isSome && r.tobs.isSome)
  let tobsCol := from_start_df.filterMap (fun r => r.tobs)
  ⟨seriesMin tobsCol, seriesMean tobsCol, seriesMax tobsCol⟩

/-- Python dict insertion for string keys: overwriting an existing key keeps
its position, a fresh key is appended. -/
def dictInsert (k : String) (v : Rat) : List (String × Rat) → List (String × Rat)
  | [] => [(k, v)]
  | (k', v') :: rest =>
    if k' == k then (k', v) :: rest else (k', v') :: dictInsert k v rest

/-- Lookup in the association-list model of a Python dict. -/
def dictFind (d : List (String × Rat)) (k : String) : Option Rat :=
  match d with
  | [] => none
  | (k', v') :: rest => if k' == k then some v' else dictFind rest k

/-- The step function of the precipitation dict comprehension: a record
with non-null precipitation writes (date, prcp) into the dict, a null one is
skipped. -/
def precipStep (d : List (String × Rat)) (r : Mrecord) : List (String × Rat) :=
  match r.prcp with
  | some v => dictInsert r.date v d
  | none => d

/-- Embedding of the dict comprehension of the precipitation route
(app.py line 225): `{ val[1]: val[2] for val in data if type(val[2]) == float }`
— records whose precipitation is None are skipped, later records overwrite
earlier ones with the same date key. -/
def precipDict (l : List Mrecord) : List (String × Rat) :=
  l.foldl precipStep []

/-- Embedding of the `/api/v1.0/precipitation` route (app.py lines 212-231),
up to JSON serialization: the last-year window, turned into a
date-to-precipitation dict. -/
def precipitation_vals (store : Store) : Except PyErr (List (String × Rat)) :=
  match year_from_most_recent_data store none with
  | Except.error e => Except.error e
  | Except.ok last_year_data => Except.ok (precipDict last_year_data)

/-- Lexicographic (component-wise) comparison of datetimes, Python's `<`. -/
def dtLt (a b : Dt) : Bool :=
  if a.year ≠ b.year then a.year < b.year
  else if a.month ≠ b.month then a.month < b.month
  else if a.day ≠ b.day then a.day < b.day
  else if a.hour ≠ b.hour then a.hour < b.hour
  else if a.minute ≠ b.minute then a.minute < b.minute
  else if a.second ≠ b.second then a.second < b.second
  else decide (a.micro < b.micro)

/-- Embedding of the `/api/v1.0/<start>/<end>` route `date_range_metrics`
(app.py lines 301-323): validate both dates, reject `start_date > end_date`,
then delegate to `calculate_range_metrics` with the raw strings. -/
def date_range_metrics (store : Store) (start endd : String) :
    Except PyErr Metrics :=
  match validate_date start with
  | Except.error e => Except.error e
  | Except.ok start_date =>
    match validate_date endd with
    | Except.error e => Except.error e
    | Except.ok end_date =>
      if dtLt end_date start_date then Except.error PyErr.rangeErr
      else Except.ok (calculate_range_metrics store start endd)


/-! Concrete data sets used to settle the claims. -/

/-- The three-measurement example data set given in the specification. -/
def specExampleStore : Store :=
  [⟨"A", "2020-01-01", some 0.1, some 60⟩,
   ⟨"A", "2020-01-02", none, some 62⟩,
   ⟨"B", "2020-01-01", some 0.2, some 58⟩]

/-- A store realizing the specification's count distribution A:5, B:9, C:2. -/
def countsStore : Store :=
  List.replicate 5 ⟨"A", "2020-01-01", none, none⟩ ++
  List.replicate 9 ⟨"B", "2020-01-01", none, none⟩ ++
  List.replicate 2 ⟨"C", "2020-01-01", none, none⟩

/-- Temperature values selected by the specification-style description of the
range query: records inside the date range whose precipitation AND observed
temperature are both present (this is what `.dropna()` on the four-column
frame actually keeps). -/
def tempsInRange (store : Store) (start : String) (endd : Option String) : List Rat :=
  (store.filter (fun r =>
    strLeB start r.date &&
    (match endd with | none => true | some e => strLeB r.date e) &&
    r.prcp.isSome && r.tobs.isSome)).filterMap (fun r => r.tobs)

/-- Correctness of the column-minimum fold: a produced value is a member of
the column and a lower bound for it. -/
theorem seriesMin_spec : ∀ (l : List Rat) (v : Rat), seriesMin l = some v →
    v ∈ l ∧ ∀ w ∈ l, v ≤ w := by
  intro l
  induction l with
  | nil => intro v h; simp [seriesMin] at h
  | cons a rest ih =>
    intro v h
    unfold seriesMin at h
    cases hr : seriesMin rest with
    | none =>
      rw [hr] at h
      have hre : rest = [] := by
        cases rest with
        | nil => rfl
        | cons b t =>
          exfalso
          unfold seriesMin at hr
          cases hst : seriesMin t <;> rw [hst] at hr <;> simp at hr
      cases h
      subst hre
      exact ⟨List.mem_singleton.mpr rfl, by intro w hw; cases hw with
        | head => exact le_refl _
        | tail _ hw2 => cases hw2⟩
    | some m =>
      rw [hr] at h
      cases h
      obtain ⟨hm, hb⟩ := ih m hr
      unfold ratMin
      by_cases hc : a ≤ m
      · rw [if_pos hc]
        refine ⟨List.mem_cons_self a rest, ?_⟩
        intro w hw
        cases hw with
        | head => exact le_refl _
        | tail _ hw2 => exact le_trans hc (hb w hw2)
      · rw [if_neg hc]
        refine ⟨List.mem_cons_of_mem a hm, ?_⟩
        intro w hw
        cases hw with
        | head => exact le_of_not_le hc
        | tail _ hw2 => exact hb w hw2

/-- A column minimum is `none` exactly on the empty column. -/
theorem seriesMin_none_iff (l : List Rat) : seriesMin l = none ↔ l = [] := by
  cases l with
  | nil => simp [seriesMin]
  | cons a rest =>
    simp only [seriesMin]
    cases seriesMin rest <;> simp

/-- Correctness of the column-maximum fold. -/
theorem seriesMax_spec : ∀ (l : List Rat) (v : Rat), seriesMax l = some v →
    v ∈ l ∧ ∀ w ∈ l, w ≤ v := by
  intro l
  induction l with
  | nil => intro v h; simp [seriesMax] at h
  | cons a rest ih =>
    intro v h
    unfold seriesMax at h
    cases hr : seriesMax rest with
    | none =>
      rw [hr] at h
      have hre : rest = [] := by
        cases rest with
        | nil => rfl
        | cons b t =>
          exfalso
          unfold seriesMax at hr
          cases hst : seriesMax t <;> rw [hst] at hr <;> simp at hr
      cases h
      subst hre
      exact ⟨List.mem_singleton.mpr rfl, by intro w hw; cases hw with
        | head => exact le_refl _
        | tail _ hw2 => cases hw2⟩
    | some m =>
      rw [hr] at h
      cases h
      obtain ⟨hm, hb⟩ := ih m hr
      unfold ratMax
      by_cases hc : a ≤ m
      · rw [if_pos hc]
        refine ⟨List.mem_cons_of_mem a hm, ?_⟩
        intro w hw
        cases hw with
        | head => exact hc
        | tail _ hw2 => exact hb w hw2
      · rw [if_neg hc]
        refine ⟨List.mem_cons_self a rest, ?_⟩
        intro w hw
        cases hw with
        | head => exact le_refl _
        | tail _ hw2 => exact le_trans (hb w hw2) (le_of_not_le hc)

/-- A column maximum is `none` exactly on the empty column. -/
theorem seriesMax_none_iff (l : List Rat) : seriesMax l = none ↔ l = [] := by
  cases l with
  | nil => simp [seriesMax]
  | cons a rest =>
    simp only [seriesMax]
    cases seriesMax rest <;> simp

/-- The two sequential date filters followed by `.dropna()` select exactly
the records of `tempsInRange`: the range query reduces to one conjunctive
filter over the store. -/
theorem calcRange_temps (store : Store) (start : String) (endd : Option String) :
    calculate_range_metrics store start endd =
      ⟨seriesMin (tempsInRange store start endd),
       seriesMean (tempsInRange store start endd),
       seriesMax (tempsInRange store start endd)⟩ := by
  unfold calculate_range_metrics tempsInRange
  cases endd with
  | none =>
    dsimp only
    have h : List.filter (fun r => r.prcp.isSome && r.tobs.isSome)
          (List.filter (fun r => strLeB start r.date) store) =
        List.filter (fun r => strLeB start r.date && true &&
          r.prcp.isSome && r.tobs.isSome) store := by
      rw [List.filter_filter]
      apply List.filter_congr
      intro r _
      cases hp : r.prcp.isSome <;> cases ht : r.tobs.isSome <;>
        cases hs : strLeB start r.date <;> rfl
    rw [h]
  | some e =>
    dsimp only
    have h : List.filter (fun r => r.prcp.isSome && r.tobs.isSome)
          (List.filter (fun r => strLeB r.date e)
            (List.filter (fun r => strLeB start r.date) store)) =
        List.filter (fun r => strLeB start r.date &&
          strLeB r.date e && r.prcp.isSome && r.tobs.isSome) store := by
      rw [List.filter_filter, List.filter_filter]
      apply List.filter_congr
      intro r _
      cases hp : r.prcp.isSome <;> cases ht : r.tobs.isSome <;>
        cases hs : strLeB start r.date <;> cases he : strLeB r.date e <;> rfl
    rw [h]

/-- C1 counterexample: over the specification's own example store, the code
yields tavg = 59 and tmax = 60, not the claimed tavg = 60, tmax = 62 — the
record with null precipitation but non-null temperature does NOT contribute,
because `.dropna()` drops rows with a null in any column. -/
theorem rangeMetrics_nullPrcp_counterexample :
    calculate_range_metrics specExampleStore ("2020-01-01") none =
      ⟨some 58, some 59, some 60⟩ ∧
    calculate_range_metrics specExampleStore ("2020-01-01") none ≠
      ⟨some 58, some 60, some 62⟩ := by
  have h := calcRange_temps specExampleStore ("2020-01-01") none
  have ht : tempsInRange specExampleStore ("2020-01-01") none = [60, 58] := by
    decide
  rw [ht] at h
  have hv : calculate_range_metrics specExampleStore ("2020-01-01") none =
      ⟨some 58, some 59, some 60⟩ := by
    rw [h]
    simp only [seriesMin, seriesMean, seriesMax, ratMin, ratMax]
    norm_num
  refine ⟨hv, ?_⟩
  rw [hv]
  intro hcontra
  have h2 := congrArg Metrics.tavg hcontra
  simp only [Option.some.injEq] at h2
  norm_num at h2

/-- C1 amended: for every store, start and optional end date, the range
query returns, in `tmin`/`tmax`, a member of and a lower/upper bound for the
`tobs` values of exactly those in-range records in which BOTH the
precipitation and the temperature field are non-null (`tempsInRange`), and
in `tavg` their arithmetic mean; a record with a null precipitation field is
therefore excluded even when its temperature is present. -/
theorem rangeMetrics_dropna_characterization (store : Store) (start : String)
    (endd : Option String) :
    ((calculate_range_metrics store start endd).tmin = none ↔
      tempsInRange store start endd = []) ∧
    (∀ v, (calculate_range_metrics store start endd).tmin = some v →
      v ∈ tempsInRange store start endd ∧
        ∀ w ∈ tempsInRange store start endd, v ≤ w) ∧
    ((calculate_range_metrics store start endd).tmax = none ↔
      tempsInRange store start endd = []) ∧
    (∀ v, (calculate_range_metrics store start endd).tmax = some v →
      v ∈ tempsInRange store start endd ∧
        ∀ w ∈ tempsInRange store start endd, w ≤ v) ∧
    (calculate_range_metrics store start endd).tavg =
      (if (tempsInRange store start endd).length = 0 then none
       else some ((tempsInRange store start endd).sum /
         (tempsInRange store start endd).length)) := by
  rw [calcRange_temps]
  exact ⟨seriesMin_none_iff _, fun v h => seriesMin_spec _ v h,
    seriesMax_none_iff _, fun v h => seriesMax_spec _ v h, rfl⟩

/-- Witness for the amended C1 theorem at the specification's example store:
the reported minimum 58 really occurs among the selected temperatures. -/
theorem rangeMetrics_dropna_characterization_witness :
    (58 : Rat) ∈ tempsInRange specExampleStore ("2020-01-01") none :=
  (((rangeMetrics_dropna_characterization specExampleStore
      ("2020-01-01") none).2.1 58 (by decide)).1)

/-- C2: on a start date past every record (and on an empty store) the code
does not surface an explicit "no data" result — `calculate_range_metrics`
silently returns the NaN sentinel (modelled `none`) in all three fields,
exactly the behavior the claim rules out. -/
theorem rangeMetrics_empty_emits_nan_sentinel :
    calculate_range_metrics specExampleStore ("2021-01-01") none =
      ⟨none, none, none⟩ ∧
    calculate_range_metrics ([] : Store) ("2020-01-01") none =
      ⟨none, none, none⟩ := by
  have h1 := calcRange_temps specExampleStore ("2021-01-01") none
  have e1 : tempsInRange specExampleStore ("2021-01-01") none = [] := by decide
  rw [e1] at h1
  have h2 := calcRange_temps ([] : Store) ("2020-01-01") none
  have e2 : tempsInRange ([] : Store) ("2020-01-01") none = [] := by decide
  rw [e2] at h2
  exact ⟨h1, h2⟩

/-- C3: on an empty store — or when the station filter matches no record —
`year_from_most_recent_data` does not fail with a distinct no-data error: it
crashes with the TypeError raised by subscripting the `None` returned by
`Query.first()`. -/
theorem lastYearWindow_empty_crashes_typeErr :
    year_from_most_recent_data ([] : Store) none = Except.error PyErr.typeErr ∧
    year_from_most_recent_data [⟨"A", "2020-01-01", none, none⟩] (some ("B")) =
      Except.error PyErr.typeErr := by
  constructor <;> decide

/-- C6: over the count distribution A:5, B:9, C:2 the code returns station
B as claimed, but on an empty store it crashes with IndexError (from `[0]`
on the empty result list) instead of failing with a distinct no-data
error. -/
theorem mostActiveStation_counts_and_empty_crash :
    most_active_station countsStore = Except.ok ("B") ∧
    most_active_station ([] : Store) = Except.error PyErr.indexErr := by
  constructor <;> decide

/-- C7: whenever both route parameters pass validation, the
`/api/v1.0/<start>/<end>` handler rejects every pair whose parsed start date
is later than its parsed end date with the invalid-range error, before the
range-query engine runs; and in the complementary case it calls
`calculate_range_metrics` with exactly the raw start/end strings. -/
theorem dateRangeMetrics_rejects_inverted_range (store : Store)
    (start endd : String) (d1 d2 : Dt)
    (h1 : validate_date start = Except.ok d1)
    (h2 : validate_date endd = Except.ok d2) :
    (dtLt d2 d1 = true →
      date_range_metrics store start endd = Except.error PyErr.rangeErr) ∧
    (dtLt d2 d1 = false →
      date_range_metrics store start endd =
        Except.ok (calculate_range_metrics store start endd)) := by
  unfold date_range_metrics
  rw [h1, h2]
  dsimp only
  constructor
  · intro hlt
    rw [if_pos hlt]
  · intro hge
    rw [if_neg (by rw [hge]; exact Bool.false_ne_true)]

/-- Witness for C7: the pair 2020-05-01 / 2020-04-01 passes validation,
parses to an inverted range, and is rejected with the range error. -/
theorem dateRangeMetrics_rejects_inverted_range_witness :
    date_range_metrics ([] : Store) ("2020-05-01") ("2020-04-01") =
      Except.error PyErr.rangeErr :=
  (dateRangeMetrics_rejects_inverted_range ([] : Store)
    ("2020-05-01") ("2020-04-01") ⟨2020, 5, 1, 0, 0, 0, 0⟩
    ⟨2020, 4, 1, 0, 0, 0, 0⟩ (by decide) (by decide)).1 (by decide)

/-- Appending characters never invalidates the ten-character prefix pattern:
the format check only inspects the first ten characters. -/
theorem dateFormatCheckL_append (l w : List Char) (hl : dateFormatCheckL l = true) :
    dateFormatCheckL (l ++ w) = true := by
  rcases l with _ | ⟨a, _ | ⟨b, _ | ⟨c, _ | ⟨d, _ | ⟨e, _ | ⟨f, _ | ⟨g, _ | ⟨h, _ |
    ⟨i, _ | ⟨j, rest⟩⟩⟩⟩⟩⟩⟩⟩⟩⟩
  all_goals simp [dateFormatCheckL] at hl ⊢
  exact hl

/-- C8: the validator's format check is a prefix match — `re.match` does not
anchor at the end of the string, so any string whose first ten characters
match `dddd-dd-dd` passes it, whatever follows; in particular
"2020-01-01-extra-junk" passes the format check, and `validate_date` does
not reject that input on format grounds (it fails later, when `int` chokes
on "extra"). -/
theorem formatCheck_prefix_tolerates_suffix :
    (∀ s t : String, dateFormatCheck s = true → dateFormatCheck (s ++ t) = true) ∧
    dateFormatCheck ("2020-01-01-extra-junk") = true ∧
    validate_date ("2020-01-01-extra-junk") ≠ Except.error PyErr.formatErr := by
  refine ⟨?_, by decide, by decide⟩
  intro s t h
  unfold dateFormatCheck at h ⊢
  rw [String.data_append]
  exact dateFormatCheckL_append s.data t.data h

/-- Witness for C8: the prefix property applied to the concrete split of
"2020-01-01-extra-junk" into valid prefix and junk suffix. -/
theorem formatCheck_prefix_tolerates_suffix_witness :
    dateFormatCheck (("2020-01-01" : String) ++ ("-extra-junk")) = true :=
  formatCheck_prefix_tolerates_suffix.1 ("2020-01-01") ("-extra-junk") (by decide)

/-- A range query paired with the measurement store it leaves behind: the
query only executes SELECT statements, so the store is unchanged. -/
def runRangeMetrics (start : String) (endd : Option String) (session : Store) :
    Metrics × Store :=
  (calculate_range_metrics session start endd, session)

/-- The last-year-window query with the store it leaves behind (read-only). -/
def runLastYearWindow (fil : Option String) (session : Store) :
    Except PyErr (List Mrecord) × Store :=
  (year_from_most_recent_data session fil, session)

/-- The most-active-station query with the store it leaves behind
(read-only). -/
def runMostActive (session : Store) : Except PyErr String × Store :=
  (most_active_station session, session)

/-- C9: every query operation is deterministic and idempotent — running any
of them a second time, against the store state the first run left behind,
returns the same result, and no run changes the store; `validate_date` is a
pure function of its input. -/
theorem query_operations_idempotent (store : Store) (start : String)
    (endd : Option String) (fil : Option String) (s : String) :
    (runRangeMetrics start endd ((runRangeMetrics start endd store).2)).1 =
      (runRangeMetrics start endd store).1 ∧
    (runRangeMetrics start endd store).2 = store ∧
    (runLastYearWindow fil ((runLastYearWindow fil store).2)).1 =
      (runLastYearWindow fil store).1 ∧
    (runLastYearWindow fil store).2 = store ∧
    (runMostActive ((runMostActive store).2)).1 = (runMostActive store).1 ∧
    (runMostActive store).2 = store ∧
    validate_date s = validate_date s :=
  ⟨rfl, rfl, rfl, rfl, rfl, rfl, rfl⟩

/-- Looking up a key after a dict insertion: the inserted key maps to the
new value, all other keys are untouched. -/
theorem dictFind_insert (kk k : String) (v : Rat) :
    ∀ d, dictFind (dictInsert kk v d) k =
      if kk == k then some v else dictFind d k := by
  intro d
  induction d with
  | nil =>
    simp only [dictInsert, dictFind]
  | cons p rest ih =>
    obtain ⟨k', v'⟩ := p
    by_cases h : (k' == kk) = true
    · have hk : k' = kk := by simpa using h
      subst hk
      simp only [dictInsert, h, if_pos, dictFind]
      by_cases h2 : (k' == k) = true
      · simp [h2]
      · simp [h2, dictFind]
    · simp only [dictInsert, h]
      simp only [Bool.false_eq_true, if_neg, dictFind]
      by_cases h2 : (k' == k) = true
      · have hk : k' = k := by simpa using h2
        have hne : (kk == k) = false := by
          apply beq_eq_false_iff_ne.mpr
          intro he
          subst he
          subst hk
          simp at h
        simp [h2, hne]
      · simp only [h2, Bool.false_eq_true, if_neg]
        exact ih

/-- The record whose value ends up under key `k`: the LAST record of the
iteration with that date and a non-null precipitation (found here as the
first match in the reversed list). -/
def lastPrcpAt (l : List Mrecord) (k : String) : Option Rat :=
  (l.reverse.find? (fun r => r.date == k && r.prcp.isSome)).bind (fun r => r.prcp)

/-- Folding the dict comprehension over a record list: each key holds the
precipitation of the last non-null record with that date, and keys absent
from the fold fall back to the accumulator. -/
theorem precipFold_lookup : ∀ (l : List Mrecord) (acc : List (String × Rat)) (k : String),
    dictFind (l.foldl precipStep acc) k =
      match lastPrcpAt l k with
      | some v => some v
      | none => dictFind acc k := by
  intro l
  induction l with
  | nil =>
    intro acc k
    simp [lastPrcpAt, dictFind]
  | cons r rest ih =>
    intro acc k
    rw [List.foldl_cons, ih]
    unfold lastPrcpAt
    rw [List.reverse_cons, List.find?_append]
    cases hfind : rest.reverse.find? (fun r => r.date == k && r.prcp.isSome) with
    | some rec =>
      have hrec := List.find?_some hfind
      have hps : rec.prcp.isSome = true := by
        simp only [Bool.and_eq_true] at hrec
        exact hrec.2
      cases ho : rec.prcp with
      | none => rw [ho] at hps; simp at hps
      | some v => simp [Option.or_some, ho]
    | none =>
      rw [Option.none_or]
      cases hpr : r.prcp with
      | none =>
        have hp : (r.date == k && r.prcp.isSome) = false := by
          simp [hpr]
        have hfr : List.find? (fun rr : Mrecord => rr.date == k && rr.prcp.isSome) [r] =
            none := by
          simp [hp]
        rw [hfr]
        simp only [Option.none_bind]
        simp [precipStep, hpr]
      | some v =>
        by_cases hd : (r.date == k) = true
        · have hp : (r.date == k && r.prcp.isSome) = true := by
            simp [hpr, hd]
          have hfr : List.find? (fun rr : Mrecord => rr.date == k && rr.prcp.isSome) [r] =
              some r := by
            simp [hp]
          rw [hfr]
          simp only [Option.some_bind, hpr]
          simp only [precipStep, hpr]
          rw [dictFind_insert]
          have hdk : r.date = k := by simpa using hd
          simp [hdk]
        · have hp : (r.date == k && r.prcp.isSome) = false := by
            simp only [Bool.and_eq_true] at hd ⊢
            simp [show (r.date == k) = false by simpa using hd]
          have hfr : List.find? (fun rr : Mrecord => rr.date == k && rr.prcp.isSome) [r] =
              none := by
            simp [hp]
          rw [hfr]
          simp only [Option.none_bind]
          simp only [precipStep, hpr]
          rw [dictFind_insert]
          have : (r.date == k) = false := by simpa using hd
          simp [this]

/-- A key occurs in the association-list dict iff its lookup succeeds. -/
theorem dictFind_isSome_iff_mem (d : List (String × Rat)) (k : String) :
    (dictFind d k).isSome = true ↔ k ∈ d.map Prod.fst := by
  induction d with
  | nil => simp [dictFind]
  | cons p rest ih =>
    obtain ⟨k', v'⟩ := p
    by_cases h : (k' == k) = true
    · have : k' = k := by simpa using h
      subst this
      simp [dictFind, h]
    · have hne : k' ≠ k := by simpa using h
      have hne2 : k ≠ k' := Ne.symm hne
      simp [dictFind, h, ih, hne2]

/-- C10: in the precipitation endpoint's result, each date key maps to the
precipitation of the LAST record with that date (and non-null precipitation)
in the window's descending-date iteration order — later duplicates overwrite
earlier ones — and the key set is exactly the set of dates carrying at least
one non-null precipitation value in the window. -/
theorem precipitation_last_write_wins (store : Store) (l : List Mrecord)
    (hl : year_from_most_recent_data store none = Except.ok l)
    (dict : List (String × Rat))
    (hd : precipitation_vals store = Except.ok dict) :
    (∀ k, dictFind dict k = lastPrcpAt l k) ∧
    (∀ k, k ∈ dict.map Prod.fst ↔ ∃ r ∈ l, r.date = k ∧ r.prcp ≠ none) := by
  have hdict : dict = precipDict l := by
    unfold precipitation_vals at hd
    rw [hl] at hd
    cases hd
    rfl
  subst hdict
  have hlook : ∀ k, dictFind (precipDict l) k = lastPrcpAt l k := by
    intro k
    unfold precipDict
    rw [precipFold_lookup]
    cases lastPrcpAt l k <;> rfl
  refine ⟨hlook, ?_⟩
  intro k
  rw [← dictFind_isSome_iff_mem, hlook]
  constructor
  · intro hsome
    unfold lastPrcpAt at hsome
    cases hf : l.reverse.find? (fun r => r.date == k && r.prcp.isSome) with
    | none => rw [hf] at hsome; simp at hsome
    | some rec =>
      have hp := List.find?_some hf
      simp only [Bool.and_eq_true] at hp
      refine ⟨rec, List.mem_reverse.mp (List.mem_of_find?_eq_some hf), ?_, ?_⟩
      · simpa using hp.1
      · intro hnone
        rw [hnone] at hp
        simp at hp
  · rintro ⟨r, hmem, hdate, hprcp⟩
    unfold lastPrcpAt
    cases hf : l.reverse.find? (fun r => r.date == k && r.prcp.isSome) with
    | none =>
      exfalso
      rw [List.find?_eq_none] at hf
      refine hf r (List.mem_reverse.mpr hmem) ?_
      simp [hdate, Option.isSome_iff_ne_none.mpr hprcp]
    | some rec =>
      have hp := List.find?_some hf
      simp only [Bool.and_eq_true] at hp
      cases hrp : rec.prcp with
      | none => rw [hrp] at hp; simp at hp
      | some v => simp [hrp]

/-- A concrete three-record window store: two stations report on
2017-08-23, one record on 2017-08-20 has null precipitation. -/
def dupDateStore : Store :=
  [⟨"A", "2017-08-23", some 5, some 70⟩,
   ⟨"B", "2017-08-23", some 7, some 71⟩,
   ⟨"A", "2017-08-20", none, some 69⟩]

/-- The last-year window of `dupDateStore` in iteration order. -/
def dupDateWindow : List Mrecord :=
  [⟨"A", "2017-08-23", some 5, some 70⟩,
   ⟨"B", "2017-08-23", some 7, some 71⟩,
   ⟨"A", "2017-08-20", none, some 69⟩]

/-- Witness for C10: on the duplicate-date store, the key 2017-08-23 holds
station B's value 7 — the later record overwrote station A's 5 — as the
last-write characterization demands. -/
theorem precipitation_last_write_wins_witness :
    dictFind (precipDict dupDateWindow) ("2017-08-23") =
      lastPrcpAt dupDateWindow ("2017-08-23") :=
  (precipitation_last_write_wins dupDateStore dupDateWindow (by decide)
    (precipDict dupDateWindow) (by decide)).1 ("2017-08-23")

/-- An ASCII digit's codepoint lies in [48, 57]. -/
theorem isDig_bounds {c : Char} (h : isDig c = true) : 48 ≤ c.toNat ∧ c.toNat ≤ 57 := by
  simpa [isDig, Bool.and_eq_true, decide_eq_true_eq] using h

/-- A digit's value is at most 9. -/
theorem digitVal_le_nine {c : Char} (h : isDig c = true) : digitVal c ≤ 9 := by
  obtain ⟨h1, h2⟩ := isDig_bounds h
  unfold digitVal
  omega

/-- A digit is not the dash separator. -/
theorem isDig_ne_dash {c : Char} (h : isDig c = true) : c ≠ '-' := by
  intro he
  subst he
  exact absurd h (by decide)

/-- A digit is not a plus sign. -/
theorem isDig_ne_plus {c : Char} (h : isDig c = true) : c ≠ '+' := by
  intro he
  subst he
  exact absurd h (by decide)

/-- A digit is not an underscore. -/
theorem isDig_ne_und {c : Char} (h : isDig c = true) : c ≠ '_' := by
  intro he
  subst he
  exact absurd h (by decide)

/-- A digit is not Python whitespace. -/
theorem isDig_not_ws {c : Char} (h : isDig c = true) : isPyWs c = false := by
  cases hw : isPyWs c
  · rfl
  · exfalso
    simp only [isPyWs, Bool.or_eq_true, beq_iff_eq] at hw
    rcases hw with ((((h' | h') | h') | h') | h') | h' <;> subst h' <;>
      exact absurd h (by decide)

/-- Splitting a list that starts with a non-separator character. -/
theorem splitOnChar_cons_ne (sep c : Char) (l : List Char) (h : c ≠ sep) :
    splitOnChar sep (c :: l) =
      match splitOnChar sep l with
      | [] => [[c]]
      | hh :: t => (c :: hh) :: t := by
  rw [splitOnChar]
  rw [if_neg h]

/-- Splitting a list that starts with the separator. -/
theorem splitOnChar_cons_sep (sep : Char) (l : List Char) :
    splitOnChar sep (sep :: l) = [] :: splitOnChar sep l := by
  rw [splitOnChar]
  rw [if_pos rfl]

/-- A well-formed date body splits into its three digit groups. -/
theorem splitOnChar_date (c1 c2 c3 c4 c5 c6 c7 c8 : Char)
    (h1 : isDig c1 = true) (h2 : isDig c2 = true) (h3 : isDig c3 = true)
    (h4 : isDig c4 = true) (h5 : isDig c5 = true) (h6 : isDig c6 = true)
    (h7 : isDig c7 = true) (h8 : isDig c8 = true) :
    splitOnChar '-' [c1, c2, c3, c4, '-', c5, c6, '-', c7, c8] =
      [[c1, c2, c3, c4], [c5, c6], [c7, c8]] := by
  have e0 : splitOnChar '-' [c8] = [[c8]] := by
    rw [splitOnChar_cons_ne _ _ _ (isDig_ne_dash h8)]
    rfl
  have e1 : splitOnChar '-' [c7, c8] = [[c7, c8]] := by
    rw [splitOnChar_cons_ne _ _ _ (isDig_ne_dash h7), e0]
  have e2 : splitOnChar '-' ['-', c7, c8] = [[], [c7, c8]] := by
    rw [splitOnChar_cons_sep, e1]
  have e3 : splitOnChar '-' [c6, '-', c7, c8] = [[c6], [c7, c8]] := by
    rw [splitOnChar_cons_ne _ _ _ (isDig_ne_dash h6), e2]
  have e4 : splitOnChar '-' [c5, c6, '-', c7, c8] = [[c5, c6], [c7, c8]] := by
    rw [splitOnChar_cons_ne _ _ _ (isDig_ne_dash h5), e3]
  have e5 : splitOnChar '-' ['-', c5, c6, '-', c7, c8] =
      [[], [c5, c6], [c7, c8]] := by
    rw [splitOnChar_cons_sep, e4]
  have e6 : splitOnChar '-' [c4, '-', c5, c6, '-', c7, c8] =
      [[c4], [c5, c6], [c7, c8]] := by
    rw [splitOnChar_cons_ne _ _ _ (isDig_ne_dash h4), e5]
  have e7 : splitOnChar '-' [c3, c4, '-', c5, c6, '-', c7, c8] =
      [[c3, c4], [c5, c6], [c7, c8]] := by
    rw [splitOnChar_cons_ne _ _ _ (isDig_ne_dash h3), e6]
  have e8 : splitOnChar '-' [c2, c3, c4, '-', c5, c6, '-', c7, c8] =
      [[c2, c3, c4], [c5, c6], [c7, c8]] := by
    rw [splitOnChar_cons_ne _ _ _ (isDig_ne_dash h2), e7]
  rw [splitOnChar_cons_ne _ _ _ (isDig_ne_dash h1), e8]

/-- A list of digits is untouched by whitespace stripping. -/
theorem stripWs_digits : ∀ (l : List Char), (∀ c ∈ l, isDig c = true) →
    stripWs l = l := by
  intro l hl
  unfold stripWs
  have hfront : ∀ (m : List Char), (∀ c ∈ m, isDig c = true) →
      m.dropWhile isPyWs = m := by
    intro m hm
    cases m with
    | nil => rfl
    | cons a t =>
      rw [List.dropWhile_cons_of_neg]
      rw [isDig_not_ws (hm a (List.mem_cons_self a t))]
      exact Bool.false_ne_true
  rw [hfront l hl, hfront l.reverse
    (fun c hc => hl c (List.mem_reverse.mp hc)), List.reverse_reverse]

/-- Python's int() on a two-digit string yields its decimal value. -/
theorem pyInt_two_digits (a b : Char) (ha : isDig a = true) (hb : isDig b = true) :
    pyInt ⟨[a, b]⟩ = some ((10 * digitVal a + digitVal b : Nat) : Int) := by
  have hstrip : stripWs (String.data ⟨[a, b]⟩) = [a, b] := by
    apply stripWs_digits
    intro c hc
    cases hc with
    | head => exact ha
    | tail _ h =>
      cases h with
      | head => exact hb
      | tail _ h2 => cases h2
  unfold pyInt
  rw [hstrip]
  dsimp only
  rw [if_neg (isDig_ne_plus ha), if_neg (isDig_ne_dash ha)]
  rw [parseNatCore, if_pos ha]
  rw [parseDigitsAcc, if_neg (isDig_ne_und hb), if_pos hb]
  rw [parseDigitsAcc]
  have harith : digitVal a * 10 + digitVal b = 10 * digitVal a + digitVal b := by
    omega
  rw [harith]
  rfl

/-- Python's int() on a four-digit string yields its decimal value. -/
theorem pyInt_four_digits (a b c d : Char) (ha : isDig a = true)
    (hb : isDig b = true) (hc : isDig c = true) (hd : isDig d = true) :
    pyInt ⟨[a, b, c, d]⟩ =
      some ((1000 * digitVal a + 100 * digitVal b + 10 * digitVal c +
        digitVal d : Nat) : Int) := by
  have hstrip : stripWs (String.data ⟨[a, b, c, d]⟩) = [a, b, c, d] := by
    apply stripWs_digits
    intro x hx
    cases hx with
    | head => exact ha
    | tail _ h =>
      cases h with
      | head => exact hb
      | tail _ h2 =>
        cases h2 with
        | head => exact hc
        | tail _ h3 =>
          cases h3 with
          | head => exact hd
          | tail _ h4 => cases h4
  unfold pyInt
  rw [hstrip]
  dsimp only
  rw [if_neg (isDig_ne_plus ha), if_neg (isDig_ne_dash ha)]
  rw [parseNatCore, if_pos ha]
  rw [parseDigitsAcc, if_neg (isDig_ne_und hb), if_pos hb]
  rw [parseDigitsAcc, if_neg (isDig_ne_und hc), if_pos hc]
  rw [parseDigitsAcc, if_neg (isDig_ne_und hd), if_pos hd]
  rw [parseDigitsAcc]
  have harith : ((digitVal a * 10 + digitVal b) * 10 + digitVal c) * 10 +
      digitVal d =
      1000 * digitVal a + 100 * digitVal b + 10 * digitVal c + digitVal d := by
    omega
  rw [harith]
  rfl

/-- The split-and-int conversion of a well-formed date string produces the
three decimal component values. -/
theorem date_string_to_nums_wellformed (c1 c2 c3 c4 c5 c6 c7 c8 : Char)
    (h1 : isDig c1 = true) (h2 : isDig c2 = true) (h3 : isDig c3 = true)
    (h4 : isDig c4 = true) (h5 : isDig c5 = true) (h6 : isDig c6 = true)
    (h7 : isDig c7 = true) (h8 : isDig c8 = true) :
    date_string_to_nums ⟨[c1, c2, c3, c4, '-', c5, c6, '-', c7, c8]⟩ =
      some [((1000 * digitVal c1 + 100 * digitVal c2 + 10 * digitVal c3 +
          digitVal c4 : Nat) : Int),
        ((10 * digitVal c5 + digitVal c6 : Nat) : Int),
        ((10 * digitVal c7 + digitVal c8 : Nat) : Int)] := by
  unfold date_string_to_nums
  rw [show (String.data ⟨[c1, c2, c3, c4, '-', c5, c6, '-', c7, c8]⟩) =
    [c1, c2, c3, c4, '-', c5, c6, '-', c7, c8] from rfl]
  rw [splitOnChar_date c1 c2 c3 c4 c5 c6 c7 c8 h1 h2 h3 h4 h5 h6 h7 h8]
  rw [List.map_cons, List.map_cons, List.map_cons, List.map_nil]
  rw [pyInt_four_digits c1 c2 c3 c4 h1 h2 h3 h4]
  rw [pyInt_two_digits c5 c6 h5 h6]
  rw [pyInt_two_digits c7 c8 h7 h8]
  rfl

/-- The format check accepts every well-formed ten-character date body. -/
theorem dateFormatCheck_wellformed (c1 c2 c3 c4 c5 c6 c7 c8 : Char)
    (h1 : isDig c1 = true) (h2 : isDig c2 = true) (h3 : isDig c3 = true)
    (h4 : isDig c4 = true) (h5 : isDig c5 = true) (h6 : isDig c6 = true)
    (h7 : isDig c7 = true) (h8 : isDig c8 = true) :
    dateFormatCheck ⟨[c1, c2, c3, c4, '-', c5, c6, '-', c7, c8]⟩ = true := by
  simp [dateFormatCheck, dateFormatCheckL, h1, h2, h3, h4, h5, h6, h7, h8]

/-- The leap condition written in validate_date is exactly the standard
Gregorian rule. -/
theorem codeLeap_eq_gregLeap (y : Int) : codeLeap y = gregLeap y := by
  unfold codeLeap gregLeap
  by_cases h4 : (y % 4 == 0) = true <;>
    by_cases h100 : (y % 100 == 0) = true <;>
      by_cases h400 : (y % 400 == 0) = true <;>
        simp [h4, h100, h400]

/-- C4 amended: for every well-formed ten-character string `YYYY-MM-DD`
whose year is at least 0001, month in [1,12] and day within that month's
length under the Gregorian leap rule, `validate_date` succeeds and returns
the datetime with exactly the parsed components; in particular 2000-02-29
and 2024-02-29 validate while 1900-02-29 and 2023-02-29 are rejected.  (The
year bound is forced by the counterexample "0000-01-01": Python's datetime
constructor has MINYEAR = 1.) -/
theorem validate_wellformed_dates :
    (∀ (c1 c2 c3 c4 c5 c6 c7 c8 : Char) (y m d : Nat),
      isDig c1 = true → isDig c2 = true → isDig c3 = true → isDig c4 = true →
      isDig c5 = true → isDig c6 = true → isDig c7 = true → isDig c8 = true →
      y = 1000 * digitVal c1 + 100 * digitVal c2 + 10 * digitVal c3 +
        digitVal c4 →
      m = 10 * digitVal c5 + digitVal c6 →
      d = 10 * digitVal c7 + digitVal c8 →
      1 ≤ y → 1 ≤ m → m ≤ 12 → 1 ≤ d →
      (d : Int) ≤ daysInMonth (y : Int) (m : Int) →
      validate_date ⟨[c1, c2, c3, c4, '-', c5, c6, '-', c7, c8]⟩ =
        Except.ok ⟨(y : Int), (m : Int), (d : Int), 0, 0, 0, 0⟩) ∧
    validate_date ("2000-02-29") = Except.ok ⟨2000, 2, 29, 0, 0, 0, 0⟩ ∧
    validate_date ("2024-02-29") = Except.ok ⟨2024, 2, 29, 0, 0, 0, 0⟩ ∧
    validate_date ("1900-02-29") = Except.error PyErr.dayErr ∧
    validate_date ("2023-02-29") = Except.error PyErr.dayErr := by
  refine ⟨?_, by decide, by decide, by decide, by decide⟩
  intro c1 c2 c3 c4 c5 c6 c7 c8 y m d h1 h2 h3 h4 h5 h6 h7 h8 hy hm hd
    hy1 hm1 hm2 hd1 hd2
  unfold validate_date
  rw [dateFormatCheck_wellformed c1 c2 c3 c4 c5 c6 c7 c8
    h1 h2 h3 h4 h5 h6 h7 h8]
  rw [if_neg (by simp)]
  rw [date_string_to_nums_wellformed c1 c2 c3 c4 c5 c6 c7 c8
    h1 h2 h3 h4 h5 h6 h7 h8]
  rw [← hy, ← hm, ← hd]
  dsimp only
  rw [if_neg (by omega)]
  rw [codeLeap_eq_gregLeap]
  have hml : month_lengths (if gregLeap (y : Int) then 29 else 28) (m : Int) =
      daysInMonth (y : Int) (m : Int) := rfl
  rw [if_neg (by rw [hml]; omega)]
  show mkDatetime (y : Int) (m : Int) (d : Int) 0 0 0 0 = _
  have b1 := digitVal_le_nine h1
  have b2 := digitVal_le_nine h2
  have b3 := digitVal_le_nine h3
  have b4 := digitVal_le_nine h4
  unfold mkDatetime
  rw [if_pos ⟨by omega, by omega, by omega, by omega, by omega, hd2,
    by norm_num, by norm_num, by norm_num, by norm_num, by norm_num,
    by norm_num, by norm_num, by norm_num⟩]

/-- C4 counterexample: "0000-01-01" is a well-formed `YYYY-MM-DD` string —
it passes the format check, its month 1 lies in [1,12] and its day 1 is
within January's 31 days (year 0 being divisible by 400 is even a leap year
under the claim's rule) — yet `validate_date` fails on it: `dt.datetime`
raises ValueError for year 0, since MINYEAR = 1. -/
theorem validate_year_zero_counterexample :
    validate_date ("0000-01-01") = Except.error PyErr.valueErr ∧
    dateFormatCheck ("0000-01-01") = true := by
  constructor <;> decide

/-- Witness for the amended C4 theorem at the leap date 2024-02-29. -/
theorem validate_wellformed_dates_witness :
    validate_date ⟨['2', '0', '2', '4', '-', '0', '2', '-', '2', '9']⟩ =
      Except.ok ⟨2024, 2, 29, 0, 0, 0, 0⟩ :=
  validate_wellformed_dates.1 '2' '0' '2' '4' '0' '2' '2' '9' 2024 2 29
    (by decide) (by decide) (by decide) (by decide) (by decide) (by decide)
    (by decide) (by decide) (by decide) (by decide) (by decide) (by decide)
    (by decide) (by decide) (by decide) (by decide)

/-- The byte-order comparison is irreflexive. -/
theorem strLtL_irrefl : ∀ u : List Char, strLtL u u = false := by
  intro u
  induction u with
  | nil => rfl
  | cons a as ih =>
    rw [strLtL]
    rw [if_neg (lt_irrefl a), if_neg (lt_irrefl a)]
    exact ih

/-- The byte-order comparison is asymmetric. -/
theorem strLtL_asymm : ∀ u v : List Char, strLtL u v = true →
    strLtL v u = false := by
  intro u
  induction u with
  | nil =>
    intro v h
    cases v with
    | nil => rfl
    | cons b bs => rfl
  | cons a as ih =>
    intro v h
    cases v with
    | nil => exact absurd h (by rw [strLtL]; exact Bool.false_ne_true)
    | cons b bs =>
      rw [strLtL] at h ⊢
      by_cases hab : a < b
      · rw [if_neg (lt_asymm hab), if_pos hab]
      · rw [if_neg hab] at h
        by_cases hba : b < a
        · rw [if_pos hba] at h
          exact absurd h (by exact Bool.false_ne_true)
        · rw [if_neg hba] at h
          rw [if_neg hba, if_neg hab]
          exact ih bs h

/-- Two characters that are mutually not less are equal. -/
theorem char_eq_of_not_lt {a b : Char} (hab : ¬a < b) (hba : ¬b < a) :
    a = b :=
  le_antisymm (not_lt.mp hba) (not_lt.mp hab)

/-- Comparing a string against an extension of an equal-length string: the
extension is larger exactly when the base is larger or equal (with a
nonempty tail). -/
theorem strLtL_append_right : ∀ (u v w : List Char), u.length = v.length →
    (strLtL u (v ++ w) = true ↔ strLtL u v = true ∨ (u = v ∧ w ≠ [])) := by
  intro u
  induction u with
  | nil =>
    intro v w hlen
    cases v with
    | cons b bs => simp at hlen
    | nil =>
      rw [List.nil_append]
      cases w with
      | nil => simp [strLtL]
      | cons c cs => simp [strLtL]
  | cons a as ih =>
    intro v w hlen
    cases v with
    | nil => simp at hlen
    | cons b bs =>
      have hlen2 : as.length = bs.length := by
        simpa using hlen
      rw [List.cons_append, strLtL, strLtL]
      by_cases hab : a < b
      · rw [if_pos hab, if_pos hab]
        simp
      · rw [if_neg hab, if_neg hab]
        by_cases hba : b < a
        · rw [if_pos hba, if_pos hba]
          have hne : a ≠ b := fun he => absurd hba (by rw [he]; exact lt_irrefl b)
          simp [hne]
        · rw [if_neg hba, if_neg hba]
          have heq : a = b := char_eq_of_not_lt hab hba
          subst heq
          rw [ih bs w hlen2]
          constructor
          · rintro (h | ⟨rfl, hw⟩)
            · exact Or.inl h
            · exact Or.inr ⟨rfl, hw⟩
          · rintro (h | ⟨he, hw⟩)
            · exact Or.inl h
            · exact Or.inr ⟨(List.cons.injEq _ _ _ _).mp he |>.2, hw⟩

/-- Membership in a stable insertion. -/
theorem mem_insertSorted (after : α → α → Bool) (a x : α) :
    ∀ l, x ∈ insertSorted after a l ↔ x = a ∨ x ∈ l := by
  intro l
  induction l with
  | nil => simp [insertSorted]
  | cons b t ih =>
    rw [insertSorted]
    by_cases h : after a b = true
    · rw [if_pos h]
      simp only [List.mem_cons, ih]
      tauto
    · rw [if_neg h]
      simp only [List.mem_cons]

/-- The stable sort is a permutation as far as membership goes. -/
theorem mem_sortWithBy (after : α → α → Bool) (x : α) :
    ∀ l, x ∈ sortWithBy after l ↔ x ∈ l := by
  intro l
  induction l with
  | nil => simp [sortWithBy]
  | cons b t ih =>
    rw [sortWithBy, mem_insertSorted]
    simp only [List.mem_cons, ih]

/-- The station filter only selects records of the underlying list. -/
theorem mem_stationFilter (fil : Option String) (r : Mrecord)
    (l : List Mrecord) (h : r ∈ stationFilter fil l) : r ∈ l := by
  cases fil with
  | none => exact h
  | some s => exact (List.mem_filter.mp h).1

/-- A two-record store whose most recent date is 2017-08-23; the other
record sits exactly on the 365-day lower bound 2016-08-23. -/
def boundaryStore : Store :=
  [⟨"A", "2016-08-23", some 1, some 70⟩,
   ⟨"A", "2017-08-23", some 2, some 71⟩]

/-- C5 counterexample: with most recent date 2017-08-23, the claim demands
every record with date >= 2016-08-23, boundary included — but the code
excludes the boundary record.  The lower bound is a `datetime`, which the
sqlite3 driver renders as the 19-character string "2016-08-23 00:00:00", and
under TEXT comparison the 10-character date "2016-08-23" sorts strictly
BELOW it, so `date >= lower_bound` fails on the boundary date itself. -/
theorem lastYearWindow_boundary_counterexample :
    year_from_most_recent_data boundaryStore none =
      Except.ok [⟨"A", "2017-08-23", some 2, some 71⟩] ∧
    strLeB ("2016-08-23") ("2016-08-23") = true ∧
    strLeB ("2016-08-23 00:00:00") ("2016-08-23") = false := by
  refine ⟨by decide, by decide, by decide⟩

/-- C5 amended: the last-year window anchors on the most recent date
(overall or per station), subtracts exactly 365 days, and keeps the records

whose TEXT date compares at least the rendered bound
`YYYY-MM-DD HH:MM:SS`; consequently, over 10-character dates, a record ON
the lower-bound date is excluded and exactly the records with date strictly
after the lower-bound date are returned. -/
theorem lastYearWindow_window_characterization (store : Store)
    (fil : Option String) (l : List Mrecord) (r0 : Mrecord)
    (nums : List Int) (mostRec lb : Dt)
    (hlen : ∀ r ∈ store, r.date.length = 10)
    (hr0 : (stationFilter fil (orderByDateDesc store)).head? = some r0)
    (hnums : date_string_to_nums r0.date = some nums)
    (hmk : dtDatetime nums = Except.ok mostRec)
    (hsub : dtSubDays mostRec 365 = Except.ok lb)
    (hl : year_from_most_recent_data store fil = Except.ok l) :
    l = (stationFilter fil (orderByDateDesc store)).filter
        (fun r => strLeB (renderDt lb) r.date) ∧
    (∀ r ∈ stationFilter fil (orderByDateDesc store),
      r.date = dateOnlyDt lb → r ∉ l) ∧
    (∀ r ∈ stationFilter fil (orderByDateDesc store),
      strLtL (dateOnlyDt lb).data r.date.data = true → r ∈ l) := by
  have hleq : l = (stationFilter fil (orderByDateDesc store)).filter
      (fun r => strLeB (renderDt lb) r.date) := by
    unfold year_from_most_recent_data at hl
    simp only [hr0, hnums, hmk, hsub] at hl
    exact ((Except.ok.injEq _ _).mp hl).symm
  have hnonempty : (timeOnlyDt lb).data ≠ [] := by
    unfold timeOnlyDt
    rw [String.data_append]
    simp
  have hrender : (renderDt lb).data =
      (dateOnlyDt lb).data ++ (timeOnlyDt lb).data := by
    unfold renderDt
    exact String.data_append _ _
  have hdlen : (dateOnlyDt lb).data.length = 10 := by
    simp [dateOnlyDt, pad4c, pad2c]
  refine ⟨hleq, ?_, ?_⟩
  · intro r hr hre hinl
    rw [hleq] at hinl
    obtain ⟨hmem, hpred⟩ := List.mem_filter.mp hinl
    unfold strLeB at hpred
    rw [hrender, hre] at hpred
    have hself : strLtL (dateOnlyDt lb).data
        ((dateOnlyDt lb).data ++ (timeOnlyDt lb).data) = true :=
      (strLtL_append_right _ _ _ rfl).mpr (Or.inr ⟨rfl, hnonempty⟩)
    rw [hself] at hpred
    exact absurd hpred (by decide)
  · intro r hr hlt
    rw [hleq]
    apply List.mem_filter.mpr
    refine ⟨hr, ?_⟩
    unfold strLeB
    rw [hrender]
    have hrdate : r.date.data.length = (dateOnlyDt lb).data.length := by
      rw [hdlen]
      exact hlen r ((mem_sortWithBy _ _ _).mp
        (mem_stationFilter fil r _ hr))
    cases hc : strLtL r.date.data
        ((dateOnlyDt lb).data ++ (timeOnlyDt lb).data) with
    | false => rfl
    | true =>
      exfalso
      rcases (strLtL_append_right _ _ _ hrdate).mp hc with h | ⟨heq, _⟩
      · have := strLtL_asymm _ _ hlt
        rw [h] at this
        exact absurd this (by decide)
      · rw [heq] at hlt
        rw [strLtL_irrefl] at hlt
        exact absurd hlt (by decide)

/-- Witness for the amended C5 theorem: on the concrete boundary store, the
record dated exactly 2016-08-23 (the lower bound for most recent date
2017-08-23) is NOT in the returned window. -/
theorem lastYearWindow_window_witness :
    (⟨"A", "2016-08-23", some 1, some 70⟩ : Mrecord) ∉
      [(⟨"A", "2017-08-23", some 2, some 71⟩ : Mrecord)] :=
  (lastYearWindow_window_characterization boundaryStore none
    [⟨"A", "2017-08-23", some 2, some 71⟩]
    ⟨"A", "2017-08-23", some 2, some 71⟩ [2017, 8, 23]
    ⟨2017, 8, 23, 0, 0, 0, 0⟩ ⟨2016, 8, 23, 0, 0, 0, 0⟩
    (by decide) (by decide) (by decide) (by decide) (by decide)
    (by decide)).2.1
    ⟨"A", "2016-08-23", some 1, some 70⟩ (by decide) (by decide)
